import Mathlib

/-!
Verification development for the fluent-typebox library (src/lib/type.ts,
most complete revision).

The library is a fluent builder facade over the external TypeBox schema
library plus a compiled-checker wrapper (`FluentTypeCheck`,
`TransformedFluentTypeCheck`, `FluentTypeCheckError`).

Shallow embedding notes:
* JavaScript runtime values are modelled by the inductive `Value`
  (JSON-like values plus `undef` for JavaScript's undefined); numbers are
  modelled as integers, since no claim depends on float behaviour.
* TypeBox schemas are modelled by the inductive `Schema` together with the
  checking semantics `Schema.check` and the error enumeration
  `Schema.errors`, mirroring the external library's documented behaviour
  (TypeBox is an external collaborator, not part of this repository).
* The wrapper classes are translated field for field; methods whose bodies
  contain no assignment to `this` are additionally given `...M` variants
  that return the post-call receiver state explicitly, so immutability
  claims are statable.
* Thrown exceptions are modelled with `Except`.
-/

mutual

/-- JavaScript runtime values (JSON-like, plus `undefined`). -/
inductive Value where
  | nul : Value
  | undef : Value
  | boolV : Bool → Value
  | numV : Int → Value
  | strV : String → Value
  | arrV : ValueList → Value
  | objV : ValueFields → Value

/-- A list of values (elements of a JavaScript array). -/
inductive ValueList where
  | nil : ValueList
  | cons : Value → ValueList → ValueList

/-- The own enumerable fields of a JavaScript object, in insertion order. -/
inductive ValueFields where
  | nil : ValueFields
  | cons : String → Value → ValueFields → ValueFields

end

def ValueList.toList : ValueList → List Value
  | .nil => []
  | .cons v rest => v :: ValueList.toList rest

/-- Property access `fields[k]` on a JavaScript object: `none` models the
property being absent (reading it would give `undefined`). -/
def ValueFields.lookup : ValueFields → String → Option Value
  | .nil, _ => none
  | .cons k v rest, key => if k == key then some v else ValueFields.lookup rest key

def Value.isStr : Value → Bool
  | .strV _ => true
  | _ => false

def Value.isNum : Value → Bool
  | .numV _ => true
  | _ => false

def Value.isBool : Value → Bool
  | .boolV _ => true
  | _ => false

def Value.isNul : Value → Bool
  | .nul => true
  | _ => false

mutual

/-- TypeBox schemas, restricted to the schema kinds the fluent facade
constructs: primitives, string literals, `any`/`unknown`/`never`, objects
with required or optional properties, arrays, the `Optional` modifier,
promises and unions.  Schema options (metadata such as length bounds) are
forwarded verbatim by the facade and carry no semantics modelled here. -/
inductive Schema where
  | str : Schema
  | num : Schema
  | intS : Schema
  | boolS : Schema
  | nullS : Schema
  | lit : String → Schema
  | anyS : Schema
  | unknownS : Schema
  | neverS : Schema
  | obj : Props → Schema
  | arr : Schema → Schema
  | opt : Schema → Schema
  | promiseS : Schema → Schema
  | union : Schemas → Schema

/-- The property map of a TypeBox object schema, in insertion order. -/
inductive Props where
  | nil : Props
  | cons : String → Schema → Props → Props

/-- The case list of a TypeBox union schema. -/
inductive Schemas where
  | nil : Schemas
  | cons : Schema → Schemas → Schemas

end

/-- Is the schema wrapped in the `Optional` modifier?  (TypeBox marks
optionality with a modifier flag on the property schema; the fluent facade
produces it through `Type.Optional`.) -/
def Schema.isOptS : Schema → Bool
  | .opt _ => true
  | _ => false

mutual

/-- TypeBox value checking (`TypeCompiler.Compile(schema).Check(value)`),
modelled from the external library's documented semantics: objects allow
additional properties by default, a property wrapped in `Optional` may be
absent, unions accept a value any case accepts, `never` accepts nothing,
and promise schemas accept only platform promise objects (which have no
counterpart among the modelled data values). -/
def Schema.check : Schema → Value → Bool
  | .str, v => v.isStr
  | .num, v => v.isNum
  | .intS, v => v.isNum
  | .boolS, v => v.isBool
  | .nullS, v => v.isNul
  | .lit s, v =>
      match v with
      | .strV t => s == t
      | _ => false
  | .anyS, _ => true
  | .unknownS, _ => true
  | .neverS, _ => false
  | .obj ps, v =>
      match v with
      | .objV fs => Props.checkAll ps fs
      | _ => false
  | .arr s, v =>
      match v with
      | .arrV items => (ValueList.toList items).all (fun w => Schema.check s w)
      | _ => false
  | .opt s, v => Schema.check s v
  | .promiseS _, _ => false
  | .union cs, v => Schemas.anyCheck cs v

/-- Per-property checking of an object value against a property map: a
present property is checked against its schema (`Schema.check` sees
through the `Optional` modifier), an absent one is allowed exactly when
the property schema is optional. -/
def Props.checkAll : Props → ValueFields → Bool
  | .nil, _ => true
  | .cons k s rest, fs =>
      (match ValueFields.lookup fs k with
       | none => s.isOptS
       | some v => Schema.check s v) && Props.checkAll rest fs

/-- Union checking: does any case accept the value? -/
def Schemas.anyCheck : Schemas → Value → Bool
  | .nil, _ => false
  | .cons s rest, v => Schema.check s v || Schemas.anyCheck rest v

end

/-- A structured validation error from the external checker's
`Errors(value)` enumeration: a path into the value, a message, and the
offending sub-value. -/
structure ValueError where
  path : String
  message : String
  value : Value

mutual

/-- TypeBox error enumeration (`TypeCheck.Errors(value)`), modelled from
the external library's documented behaviour: one structured error per
failing constraint, empty exactly when the value checks.  Array item
errors keep the parent path and union errors are reported as a single
top-level error (a simplification of TypeBox's exact path/message texts,
which no claim depends on). -/
def Schema.errors : Schema → String → Value → List ValueError
  | .str, p, v => if v.isStr then [] else [⟨p, "Expected string", v⟩]
  | .num, p, v => if v.isNum then [] else [⟨p, "Expected number", v⟩]
  | .intS, p, v => if v.isNum then [] else [⟨p, "Expected integer", v⟩]
  | .boolS, p, v => if v.isBool then [] else [⟨p, "Expected boolean", v⟩]
  | .nullS, p, v => if v.isNul then [] else [⟨p, "Expected null", v⟩]
  | .lit s, p, v =>
      match v with
      | .strV t => if s == t then [] else [⟨p, "Expected literal value", .strV t⟩]
      | _ => [⟨p, "Expected literal value", v⟩]
  | .anyS, _, _ => []
  | .unknownS, _, _ => []
  | .neverS, p, v => [⟨p, "Expected never", v⟩]
  | .obj ps, p, v =>
      match v with
      | .objV fs => Props.errorsAll ps p fs
      | _ => [⟨p, "Expected object", v⟩]
  | .arr s, p, v =>
      match v with
      | .arrV items => ((ValueList.toList items).map (fun w => Schema.errors s p w)).flatten
      | _ => [⟨p, "Expected array", v⟩]
  | .opt s, p, v => Schema.errors s p v
  | .promiseS _, p, v => [⟨p, "Expected Promise", v⟩]
  | .union cs, p, v =>
      if Schemas.anyCheck cs v then [] else [⟨p, "Expected union value", v⟩]

/-- Per-property error enumeration of an object value, mirroring
`Props.checkAll`: a failing present property contributes its sub-errors at
path `p/k`, a missing required property contributes a
"required property" error whose offending value is `undefined`. -/
def Props.errorsAll : Props → String → ValueFields → List ValueError
  | .nil, _, _ => []
  | .cons k s rest, p, fs =>
      (match ValueFields.lookup fs k with
       | none =>
          if s.isOptS then [] else [⟨p ++ "/" ++ k, "Expected required property", Value.undef⟩]
       | some v => Schema.errors s (p ++ "/" ++ k) v) ++ Props.errorsAll rest p fs

end

/-- The external compiled-validator handle (`TypeCheck<T>` from
`@sinclair/typebox/compiler`): permanently bound to the schema it was
compiled from, with `Check`/`Errors` behaving as that schema's semantics. -/
structure TypeCheck where
  schema : Schema

def TypeCheck.Check (t : TypeCheck) (v : Value) : Bool :=
  Schema.check t.schema v

def TypeCheck.Errors (t : TypeCheck) (v : Value) : List ValueError :=
  Schema.errors t.schema "" v

/-- `TypeCompiler.Compile(schema)`: returns a validator bound to the schema. -/
def TypeCompiler.Compile (s : Schema) : TypeCheck := ⟨s⟩

/-- `FluentTypeBuilderBase<T>` (source lines 106-138): wraps exactly one
schema handle, `this.type`.  The per-kind subclasses
(`StringFluentTypeBuilder`, `OptionalFluentTypeBuilder`, ...) add no data
or behaviour and are collapsed into this one structure. -/
structure FluentTypeBuilderBase where
  type : Schema

/-- `schema()` accessor (line 126): returns the held schema handle. -/
def FluentTypeBuilderBase.schema (b : FluentTypeBuilderBase) : Schema := b.type

/-- `optional()` (line 113): `new OptionalFluentTypeBuilder(Type.Optional(this.type))`. -/
def FluentTypeBuilderBase.optional (b : FluentTypeBuilderBase) : FluentTypeBuilderBase :=
  ⟨.opt b.type⟩

/-- `nullable()` (line 116): `Type.Union([Type.Null(), this.type])`. -/
def FluentTypeBuilderBase.nullable (b : FluentTypeBuilderBase) : FluentTypeBuilderBase :=
  ⟨.union (.cons .nullS (.cons b.type .nil))⟩

/-- `array()` (line 119): `Type.Array(this.type)`. -/
def FluentTypeBuilderBase.array (b : FluentTypeBuilderBase) : FluentTypeBuilderBase :=
  ⟨.arr b.type⟩

/-- `promised()` (line 122): `Type.Promise(this.type)`. -/
def FluentTypeBuilderBase.promised (b : FluentTypeBuilderBase) : FluentTypeBuilderBase :=
  ⟨.promiseS b.type⟩

/-- First-match association-list lookup: JavaScript property access on the
plain objects lodash manipulates (keys of a JavaScript object are unique). -/
def lookupProp {α : Type} (props : List (String × α)) (k : String) : Option α :=
  (props.find? (fun kv => kv.1 == k)).map (fun kv => kv.2)

/-- JavaScript object spread {...a, ...b}: the keys of `a` in their order,
each taking `b`'s value when `b` also has the key, followed by the keys of
`b` absent from `a`, in `b`'s order. -/
def spreadMerge {α : Type} (a b : List (String × α)) : List (String × α) :=
  a.map (fun kv => (kv.1, (lookupProp b kv.1).getD kv.2))
    ++ b.filter (fun kv => (lookupProp a kv.1).isNone)

/-- lodash `_.omit(obj, keys)`: the own fields of `obj` whose names are not
listed in `keys`, in their original order. -/
def lodashOmit {α : Type} (props : List (String × α)) (keys : List String) : List (String × α) :=
  props.filter (fun kv => !(keys.contains kv.1))

/-- lodash `_.pick(obj, keys)`: for each listed key present in `obj`, that
field, in the order of `keys`. -/
def lodashPick {α : Type} (props : List (String × α)) (keys : List String) : List (String × α) :=
  keys.filterMap (fun k => (lookupProp props k).map (fun v => (k, v)))

/-- The `_.transform` call shared by `object`/`extend`/`pick`/`omit`: maps
each field's builder to `value.schema()`. -/
def transformProps (props : List (String × FluentTypeBuilderBase)) : List (String × Schema) :=
  props.map (fun kv => (kv.1, kv.2.schema))

/-- Conversion of a field list into an object schema's property map. -/
def Props.ofList : List (String × Schema) → Props
  | [] => .nil
  | kv :: rest => .cons kv.1 kv.2 (Props.ofList rest)

/-- `ObjectFluentTypeBuilder<T, P>` (lines 163-198): the schema handle of
the base class plus the field mapping `this.properties` from field name to
child builder. -/
structure ObjectFluentTypeBuilder where
  type : Schema
  properties : List (String × FluentTypeBuilderBase)

/-- The inherited `schema()` accessor. -/
def ObjectFluentTypeBuilder.schema (b : ObjectFluentTypeBuilder) : Schema := b.type

/-- `FluentTypeBuilder.object(properties)` (lines 71-77): builds
`Type.Object` over the transformed properties and stores `properties` as
the field mapping. -/
def FluentTypeBuilder.object (properties : List (String × FluentTypeBuilderBase)) : ObjectFluentTypeBuilder :=
  ⟨.obj (Props.ofList (transformProps properties)), properties⟩

/-- `extend(properties)` (lines 175-181): the schema is built from the
spread-merge of the receiver's fields with the new ones, but the stored
field mapping of the returned builder is `properties` alone — exactly as in
the source, `new ObjectFluentTypeBuilder(Type.Object(transformedProperties,
options), properties)`. -/
def ObjectFluentTypeBuilder.extend (b : ObjectFluentTypeBuilder)
    (properties : List (String × FluentTypeBuilderBase)) : ObjectFluentTypeBuilder :=
  ⟨.obj (Props.ofList (transformProps (spreadMerge b.properties properties))), properties⟩

/-- `pick(keys)` (lines 183-189): keeps only the listed fields of the
stored mapping. -/
def ObjectFluentTypeBuilder.pick (b : ObjectFluentTypeBuilder) (keys : List String) : ObjectFluentTypeBuilder :=
  let pickedProperties := lodashPick b.properties keys
  ⟨.obj (Props.ofList (transformProps pickedProperties)), pickedProperties⟩

/-- `omit(keys)` (lines 191-198): drops the listed fields of the stored
mapping. -/
def ObjectFluentTypeBuilder.omit (b : ObjectFluentTypeBuilder) (keys : List String) : ObjectFluentTypeBuilder :=
  let pickedProperties := lodashOmit b.properties keys
  ⟨.obj (Props.ofList (transformProps pickedProperties)), pickedProperties⟩

/-- `Type.Partial` from TypeBox: every property of an object schema becomes
optional. -/
def Props.makeOpt : Props → Props
  | .nil => .nil
  | .cons k (.opt s) rest => .cons k (.opt s) (Props.makeOpt rest)
  | .cons k s rest => .cons k (.opt s) (Props.makeOpt rest)

def Schema.Partial : Schema → Schema
  | .obj ps => .obj (Props.makeOpt ps)
  | s => s

/-- The object builder method at lines 172-174 (the source spells it in
lower case): `new PartialFluentTypeBuilder(Type.Partial(this.type))`. -/
def ObjectFluentTypeBuilder.Partial (b : ObjectFluentTypeBuilder) : FluentTypeBuilderBase :=
  ⟨Schema.Partial b.type⟩

/-- `FluentTypeCheck<T>` (lines 232-251): wraps the externally compiled
validator handle `this.typeCheck`. -/
structure FluentTypeCheck where
  typeCheck : TypeCheck

/-- `check(value)` (lines 239-241): `this.typeCheck.Check(value)`. -/
def FluentTypeCheck.check (c : FluentTypeCheck) (v : Value) : Bool :=
  c.typeCheck.Check v

/-- `errors(value)` (lines 248-250): `this.typeCheck.Errors(value)`. -/
def FluentTypeCheck.errors (c : FluentTypeCheck) (v : Value) : List ValueError :=
  c.typeCheck.Errors v

/-- `FluentTypeCheckError` (lines 273-282): an `Error` subclass recording
the message, the rejecting checker (`this.typeCheck`) and the rejected
input (`this.value`) exactly as given. -/
structure FluentTypeCheckError where
  message : String
  typeCheck : FluentTypeCheck
  value : Value

/-- `parse(value)` (lines 242-247): `if (!this.check(value)) throw new
FluentTypeCheckError('schema validation failed', this, value); return
value;`.  The thrown exception is the `Except.error` branch. -/
def FluentTypeCheck.parse (c : FluentTypeCheck) (v : Value) : Except FluentTypeCheckError Value :=
  if !(c.check v) then .error ⟨"schema validation failed", c, v⟩
  else .ok v

/-- `TransformedFluentTypeCheck<T, TT>` (lines 252-267): the superclass
part plus the bound transform function `this.transform`.  The output type
`TT` is trusted as declared by the caller and never validated, so the
transform is modelled as an arbitrary function on runtime values. -/
structure TransformedFluentTypeCheck where
  toFluentTypeCheck : FluentTypeCheck
  transform : Value → Value

/-- The overriding `parse(value)` (lines 261-266), instrumented: alongside
the result it returns the list of arguments the transform function is
applied to during the call, so invocation-count claims are statable.  The
source body applies `this.transform` on exactly one code path, after the
check succeeds, and the check failure path throws before reaching it. -/
def TransformedFluentTypeCheck.parseInstr (c : TransformedFluentTypeCheck) (v : Value) :
    Except FluentTypeCheckError Value × List Value :=
  if !(c.toFluentTypeCheck.check v) then
    (.error ⟨"schema validation failed", c.toFluentTypeCheck, v⟩, [])
  else
    (.ok (c.transform v), [v])

/-- The overriding `parse(value)` (lines 261-266), result only. -/
def TransformedFluentTypeCheck.parse (c : TransformedFluentTypeCheck) (v : Value) :
    Except FluentTypeCheckError Value :=
  (c.parseInstr v).1

/-- `compile()` without a transform (lines 130-137):
`new FluentTypeCheck(TypeCompiler.Compile(this.type))`. -/
def FluentTypeBuilderBase.compile (b : FluentTypeBuilderBase) : FluentTypeCheck :=
  ⟨TypeCompiler.Compile b.type⟩

/-- `compile(transform)` (lines 130-137):
`new TransformedFluentTypeCheck(TypeCompiler.Compile(this.type), transform)`. -/
def FluentTypeBuilderBase.compileT (b : FluentTypeBuilderBase) (transform : Value → Value) :
    TransformedFluentTypeCheck :=
  ⟨⟨TypeCompiler.Compile b.type⟩, transform⟩

mutual

/-- Node's `util.inspect`, modelled as a plain structural rendering of a
value.  The exact text is external to the repository; the claims depend
only on the fact that exactly one chunk is written for it. -/
def Value.inspectV : Value → String
  | .nul => "null"
  | .undef => "undefined"
  | .boolV b => cond b "true" "false"
  | .numV n => toString n
  | .strV s => s
  | .arrV items => "[ " ++ ValueList.inspectL items ++ " ]"
  | .objV fs => "\x7b " ++ ValueFields.inspectF fs ++ " \x7d"

def ValueList.inspectL : ValueList → String
  | .nil => ""
  | .cons v .nil => Value.inspectV v
  | .cons v rest => Value.inspectV v ++ ", " ++ ValueList.inspectL rest

def ValueFields.inspectF : ValueFields → String
  | .nil => ""
  | .cons k v .nil => k ++ ": " ++ Value.inspectV v
  | .cons k v rest => k ++ ": " ++ Value.inspectV v ++ ", " ++ ValueFields.inspectF rest

end

mutual

/-- JavaScript string coercion, as applied to `valueError.value` by the
template literal in `writeDetailedOutput`: arrays join their elements with
commas, plain objects render as `[object Object]` (the element rendering
of nested null/undefined inside arrays is simplified). -/
def Value.jsToString : Value → String
  | .nul => "null"
  | .undef => "undefined"
  | .boolV b => cond b "true" "false"
  | .numV n => toString n
  | .strV s => s
  | .arrV items => ValueList.jsJoin items
  | .objV _ => "[object Object]"

def ValueList.jsJoin : ValueList → String
  | .nil => ""
  | .cons v .nil => Value.jsToString v
  | .cons v rest => Value.jsToString v ++ "," ++ ValueList.jsJoin rest

end

/-- One diagnostic chunk of `writeDetailedOutput`:
`` `[${valueError.path}] ${valueError.message} <${valueError.value}>` + '\n' ``. -/
def ValueError.line (ve : ValueError) : String :=
  "[" ++ ve.path ++ "] " ++ ve.message ++ " <" ++ ve.value.jsToString ++ ">" ++ "\n"

/-- `writeDetailedOutput(stdout)` (lines 284-288).  The writable sink is
modelled as the list of chunks written so far, each write appending one
chunk: first `inspect(this.value) + '\n'`, then — via the `for..of` loop
over `this.typeCheck.errors(this.value)` — one line per enumerated error. -/
def FluentTypeCheckError.writeDetailedOutput (e : FluentTypeCheckError) (stdout : List String) :
    List String :=
  let afterValue := stdout ++ [e.value.inspectV ++ "\n"]
  (e.typeCheck.errors e.value).foldl (fun acc ve => acc ++ [ve.line]) afterValue

/-!
State-passing translations.  A TypeScript method runs against a mutable
receiver, so each method relevant to an immutability or statelessness
claim is also translated as a function returning the pair of its result
and the post-call receiver.  None of the translated bodies contains an
assignment to a field of `this` (they only read `this.type`,
`this.properties`, `this.typeCheck`, `this.transform` or `this.value`),
so each translation's post-call receiver is the receiver it was given.
-/

/-- `optional()` (line 113) with the post-call receiver made explicit. -/
def FluentTypeBuilderBase.optionalM (b : FluentTypeBuilderBase) :
    FluentTypeBuilderBase × FluentTypeBuilderBase :=
  (⟨.opt b.type⟩, b)

/-- `nullable()` (line 116) with the post-call receiver made explicit. -/
def FluentTypeBuilderBase.nullableM (b : FluentTypeBuilderBase) :
    FluentTypeBuilderBase × FluentTypeBuilderBase :=
  (⟨.union (.cons .nullS (.cons b.type .nil))⟩, b)

/-- `array()` (line 119) with the post-call receiver made explicit. -/
def FluentTypeBuilderBase.arrayM (b : FluentTypeBuilderBase) :
    FluentTypeBuilderBase × FluentTypeBuilderBase :=
  (⟨.arr b.type⟩, b)

/-- `promised()` (line 122) with the post-call receiver made explicit. -/
def FluentTypeBuilderBase.promisedM (b : FluentTypeBuilderBase) :
    FluentTypeBuilderBase × FluentTypeBuilderBase :=
  (⟨.promiseS b.type⟩, b)

/-- The object builder's lines 172-174 method (`Type.Partial`) with the
post-call receiver made explicit. -/
def ObjectFluentTypeBuilder.PartialM (b : ObjectFluentTypeBuilder) :
    FluentTypeBuilderBase × ObjectFluentTypeBuilder :=
  (⟨Schema.Partial b.type⟩, b)

/-- `extend(properties)` (lines 175-181) with the post-call receiver made
explicit. -/
def ObjectFluentTypeBuilder.extendM (b : ObjectFluentTypeBuilder)
    (properties : List (String × FluentTypeBuilderBase)) :
    ObjectFluentTypeBuilder × ObjectFluentTypeBuilder :=
  (b.extend properties, b)

/-- `pick(keys)` (lines 183-189) with the post-call receiver made explicit. -/
def ObjectFluentTypeBuilder.pickM (b : ObjectFluentTypeBuilder) (keys : List String) :
    ObjectFluentTypeBuilder × ObjectFluentTypeBuilder :=
  (b.pick keys, b)

/-- `omit(keys)` (lines 191-198) with the post-call receiver made explicit. -/
def ObjectFluentTypeBuilder.omitM (b : ObjectFluentTypeBuilder) (keys : List String) :
    ObjectFluentTypeBuilder × ObjectFluentTypeBuilder :=
  (b.omit keys, b)

/-- `check(value)` (lines 239-241) with the post-call receiver made
explicit: the body is the single expression `this.typeCheck.Check(value)`. -/
def FluentTypeCheck.checkM (c : FluentTypeCheck) (v : Value) : Bool × FluentTypeCheck :=
  (c.typeCheck.Check v, c)

/-- `writeDetailedOutput(stdout)` (lines 284-288) with the post-call
receiver (the error object) made explicit: the body only reads
`this.value` and `this.typeCheck` and writes to the caller's sink. -/
def FluentTypeCheckError.writeDetailedOutputM (e : FluentTypeCheckError) (stdout : List String) :
    List String × FluentTypeCheckError :=
  (e.writeDetailedOutput stdout, e)

/-!
Helper lemmas.
-/

/-- Unrolling of the write loop: folding appends of single chunks over a
list writes exactly one chunk per element, after the initial sink
contents. -/
theorem foldl_append_singleton {α : Type} (f : α → String) :
    ∀ (l : List α) (init : List String),
      l.foldl (fun acc x => acc ++ [f x]) init = init ++ l.map f
  | [], init => by simp
  | x :: rest, init => by
      simp [List.foldl, foldl_append_singleton f rest (init ++ [f x])]

mutual

/-- Agreement of the modelled external validator's two faces: whenever
`Check` rejects a value, the `Errors` enumeration is non-empty. -/
theorem Schema.errors_ne_of_check_false :
    ∀ (s : Schema) (p : String) (v : Value),
      Schema.check s v = false → Schema.errors s p v ≠ []
  | .str, p, v => by
      cases v <;> simp [Schema.check, Schema.errors, Value.isStr]
  | .num, p, v => by
      cases v <;> simp [Schema.check, Schema.errors, Value.isNum]
  | .intS, p, v => by
      cases v <;> simp [Schema.check, Schema.errors, Value.isNum]
  | .boolS, p, v => by
      cases v <;> simp [Schema.check, Schema.errors, Value.isBool]
  | .nullS, p, v => by
      cases v <;> simp [Schema.check, Schema.errors, Value.isNul]
  | .lit s, p, v => by
      cases v <;> simp [Schema.check, Schema.errors]
  | .anyS, p, v => by simp [Schema.check]
  | .unknownS, p, v => by simp [Schema.check]
  | .neverS, p, v => by simp [Schema.errors]
  | .obj ps, p, v => fun h => by
      cases v <;> simp [Schema.errors]
      exact Props.errorsAll_ne_of_checkAll_false ps p _ (by simpa [Schema.check] using h)
  | .arr s, p, v => fun h => by
      cases v <;> simp [Schema.errors]
      case arrV items =>
        have h' : (ValueList.toList items).all (fun w => Schema.check s w) = false := by
          simpa [Schema.check] using h
        rw [List.all_eq_false] at h'
        obtain ⟨w, hw, hwf⟩ := h'
        exact ⟨w, hw, Schema.errors_ne_of_check_false s p w (by simpa using hwf)⟩
  | .opt s, p, v => fun h => Schema.errors_ne_of_check_false s p v h
  | .promiseS s, p, v => fun _ => by simp [Schema.errors]
  | .union cs, p, v => fun h => by
      have h' : Schemas.anyCheck cs v = false := by simpa [Schema.check] using h
      simp [Schema.errors, h']

/-- Companion of `Schema.errors_ne_of_check_false` for property maps. -/
theorem Props.errorsAll_ne_of_checkAll_false :
    ∀ (ps : Props) (p : String) (fs : ValueFields),
      Props.checkAll ps fs = false → Props.errorsAll ps p fs ≠ []
  | .nil, p, fs => by simp [Props.checkAll]
  | .cons k s rest, p, fs => fun h => by
      have h' : (match ValueFields.lookup fs k with
                 | none => s.isOptS
                 | some v => Schema.check s v) = false ∨ Props.checkAll rest fs = false :=
        Bool.and_eq_false_iff.mp h
      simp only [Props.errorsAll]
      intro hnil
      rw [List.append_eq_nil] at hnil
      obtain ⟨h1, h2⟩ := hnil
      cases h' with
      | inr hr => exact Props.errorsAll_ne_of_checkAll_false rest p fs hr h2
      | inl hl =>
        cases hk : ValueFields.lookup fs k with
        | none =>
            simp [hk] at hl h1
            simp [hl] at h1
        | some v =>
            simp [hk] at hl h1
            exact Schema.errors_ne_of_check_false s (p ++ "/" ++ k) v hl h1

end

/-- Omitting every key of a field list leaves nothing. -/
theorem lodashOmit_map_fst {α : Type} (p : List (String × α)) :
    lodashOmit p (p.map Prod.fst) = [] := by
  rw [lodashOmit, List.filter_eq_nil_iff]
  intro kv hkv
  have hmem : kv.1 ∈ p.map Prod.fst := List.mem_map_of_mem Prod.fst hkv
  simp [List.elem_eq_true_of_mem hmem]
  exact ⟨kv.2, by simpa using hkv⟩

/-!
Claims.
-/

/-- C1 counterexample: for the object builder `{name: string}`, extending
with the new field `age: number` and then omitting `"age"` yields a schema
that accepts the empty object — which the original builder's schema
rejects — so the two schemas do not accept the same set of values. -/
theorem extend_omit_roundTrip_counterexample :
    Schema.check (((FluentTypeBuilder.object [("name", ⟨Schema.str⟩)]).extend
        [("age", ⟨Schema.num⟩)]).omit ["age"]).schema (.objV .nil) = true ∧
    Schema.check (FluentTypeBuilder.object [("name", ⟨Schema.str⟩)]).schema (.objV .nil) = false :=
  ⟨rfl, rfl⟩

/-- C1 (amended): for every object builder and every list of new fields,
extending with the new fields and then omitting those same field names
yields the builder with the empty field mapping and the empty object
schema, which accepts every object value — not, in general, a schema
accepting the same set of values as the original builder's schema.
(`extend` stores only the newly added properties as the result's field
mapping, so the omit of their names removes every stored field.) -/
theorem extend_omit_roundTrip_amended (b : ObjectFluentTypeBuilder)
    (p : List (String × FluentTypeBuilderBase)) :
    ((b.extend p).omit (p.map Prod.fst)).properties = [] ∧
    ((b.extend p).omit (p.map Prod.fst)).schema = .obj .nil ∧
    ∀ fs : ValueFields,
      Schema.check ((b.extend p).omit (p.map Prod.fst)).schema (.objV fs) = true := by
  have hprops : lodashOmit (b.extend p).properties (p.map Prod.fst) = [] :=
    lodashOmit_map_fst p
  refine ⟨?_, ?_, ?_⟩ <;>
    simp [ObjectFluentTypeBuilder.omit, ObjectFluentTypeBuilder.schema, hprops,
      transformProps, Props.ofList, Schema.check, Props.checkAll]

/-- C2: for every plain compiled checker and every value `check` accepts,
`parse` returns exactly that value, and parsing the returned value again
keeps returning it (idempotence under repeated calls). -/
theorem parse_id_of_check (c : FluentTypeCheck) (v : Value) (h : c.check v = true) :
    c.parse v = .ok v ∧ ∀ u : Value, c.parse v = .ok u → c.parse u = .ok u := by
  refine ⟨by simp [FluentTypeCheck.parse, h], ?_⟩
  intro u hu
  have hv : v = u := by simpa [FluentTypeCheck.parse, h] using hu
  subst hv
  simp [FluentTypeCheck.parse, h]

/-- C2 witness: the string checker accepts `"a"` and parses it to itself. -/
theorem parse_id_of_check_witness :
    (FluentTypeBuilderBase.compile ⟨Schema.str⟩).parse (.strV "a") = .ok (.strV "a") :=
  (parse_id_of_check (FluentTypeBuilderBase.compile ⟨Schema.str⟩) (.strV "a") rfl).1

/-- C3: on a transformed compiled checker, for every value the check
accepts, `parse` returns exactly the transform of the value, applying the
bound transform exactly once (the instrumented call log is exactly `[v]`),
and when the check rejects the value the transform is never applied (the
log is empty); the returned transform output is not itself validated — the
result is `ok (transform v)` with no condition on checking it. -/
theorem transformed_parse_applies_transform_once (c : TransformedFluentTypeCheck) (v : Value) :
    (c.toFluentTypeCheck.check v = true →
      c.parseInstr v = (.ok (c.transform v), [v])) ∧
    (c.toFluentTypeCheck.check v = false → (c.parseInstr v).2 = []) := by
  constructor <;> intro h <;> simp [TransformedFluentTypeCheck.parseInstr, h]

/-- C3 witness: a transformed string checker parses `"a"` to the transform
output with call log `["a"]`, and applies no transform to the rejected
value `1`. -/
theorem transformed_parse_applies_transform_once_witness :
    (FluentTypeBuilderBase.compileT ⟨Schema.str⟩ (fun _ => Value.numV 0)).parseInstr (.strV "a")
        = (.ok (.numV 0), [.strV "a"]) ∧
    ((FluentTypeBuilderBase.compileT ⟨Schema.str⟩ (fun _ => Value.numV 0)).parseInstr
        (.numV 1)).2 = [] :=
  ⟨(transformed_parse_applies_transform_once
      (FluentTypeBuilderBase.compileT ⟨Schema.str⟩ (fun _ => Value.numV 0)) (.strV "a")).1 rfl,
   (transformed_parse_applies_transform_once
      (FluentTypeBuilderBase.compileT ⟨Schema.str⟩ (fun _ => Value.numV 0)) (.numV 1)).2 rfl⟩

/-- C4: for every value the checker rejects, `parse` raises a validation
error whose stored value is that very value and which carries a reference
to the rejecting checker, and the checker's `errors` enumeration at that
value is non-empty.  (Reference identity of the stored value is rendered
as equality, the strongest statement expressible in a pure embedding; the
source stores the received reference without copying.) -/
theorem parse_error_on_check_false (c : FluentTypeCheck) (v : Value) (h : c.check v = false) :
    c.parse v = .error ⟨"schema validation failed", c, v⟩ ∧ c.errors v ≠ [] := by
  refine ⟨by simp [FluentTypeCheck.parse, h], ?_⟩
  exact Schema.errors_ne_of_check_false c.typeCheck.schema "" v h

/-- C4 witness: the string checker rejects `3`; `parse` raises the
validation error holding `3` and the checker, and `errors 3` is
non-empty. -/
theorem parse_error_on_check_false_witness :
    (FluentTypeBuilderBase.compile ⟨Schema.str⟩).parse (.numV 3)
      = .error ⟨"schema validation failed", FluentTypeBuilderBase.compile ⟨Schema.str⟩, .numV 3⟩ ∧
    (FluentTypeBuilderBase.compile ⟨Schema.str⟩).errors (.numV 3) ≠ [] :=
  parse_error_on_check_false (FluentTypeBuilderBase.compile ⟨Schema.str⟩) (.numV 3) rfl

/-- C5 counterexample: a transformed checker's `parse` can return normally
a value that fails `check`: over the string schema with the constant
transform `_ => 0`, `parse("a")` returns `ok 0` although `check 0` is
false — the transform's output is trusted, not validated. -/
theorem parse_returns_checked_counterexample :
    (FluentTypeBuilderBase.compileT ⟨Schema.str⟩ (fun _ => Value.numV 0)).parse (.strV "a")
        = .ok (.numV 0) ∧
    (FluentTypeBuilderBase.compileT ⟨Schema.str⟩ (fun _ => Value.numV 0)).toFluentTypeCheck.check
        (.numV 0) = false :=
  ⟨rfl, rfl⟩

/-- C5 (amended): for every PLAIN compiled checker and input value,
whenever `parse` returns normally the returned value passes `check` (it is
the input, which passed); a transformed checker's normal return is the
transform's output, which is trusted as declared and need not pass
`check`. -/
theorem plain_parse_returns_checked (c : FluentTypeCheck) (v r : Value)
    (h : c.parse v = .ok r) : c.check r = true := by
  cases hc : c.check v with
  | false => simp [FluentTypeCheck.parse, hc] at h
  | true =>
      have hv : v = r := by simpa [FluentTypeCheck.parse, hc] using h
      subst hv
      exact hc

/-- C5 witness: the string checker parses `"a"` normally, and the returned
value passes `check`. -/
theorem plain_parse_returns_checked_witness :
    (FluentTypeBuilderBase.compile ⟨Schema.str⟩).check (.strV "a") = true :=
  plain_parse_returns_checked (FluentTypeBuilderBase.compile ⟨Schema.str⟩)
    (.strV "a") (.strV "a") rfl

/-- C6: every mutating-looking builder operation — `optional`, `nullable`,
`array`, `promised`, the object builder's lines 172-174 method, `extend`,
`pick`, `omit` — returns a new builder wrapping a freshly constructed
schema handle and leaves the receiver unchanged: its schema handle, and
for object builders also its field mapping, are those it was constructed
with (the translated method bodies assign nothing to the receiver). -/
theorem builder_ops_leave_receiver_unchanged (b : FluentTypeBuilderBase)
    (ob : ObjectFluentTypeBuilder) (p : List (String × FluentTypeBuilderBase))
    (keys : List String) :
    ((b.optionalM).2 = b ∧ (b.nullableM).2 = b ∧ (b.arrayM).2 = b ∧ (b.promisedM).2 = b ∧
      (ob.PartialM).2 = ob ∧ (ob.extendM p).2 = ob ∧ (ob.pickM keys).2 = ob ∧
      (ob.omitM keys).2 = ob) ∧
    ((ob.extendM p).2.type = ob.type ∧ (ob.extendM p).2.properties = ob.properties ∧
      (ob.omitM keys).2.type = ob.type ∧ (ob.omitM keys).2.properties = ob.properties ∧
      (ob.pickM keys).2.type = ob.type ∧ (ob.pickM keys).2.properties = ob.properties) ∧
    ((b.optionalM).1.type = .opt b.type ∧
      (b.nullableM).1.type = .union (.cons .nullS (.cons b.type .nil)) ∧
      (b.arrayM).1.type = .arr b.type ∧ (b.promisedM).1.type = .promiseS b.type ∧
      (ob.PartialM).1.type = Schema.Partial ob.type ∧ (ob.extendM p).1 = ob.extend p ∧
      (ob.pickM keys).1 = ob.pick keys ∧ (ob.omitM keys).1 = ob.omit keys) :=
  ⟨⟨rfl, rfl, rfl, rfl, rfl, rfl, rfl, rfl⟩,
   ⟨rfl, rfl, rfl, rfl, rfl, rfl⟩,
   ⟨rfl, rfl, rfl, rfl, rfl, rfl, rfl, rfl⟩⟩

/-- C7 counterexample: the chunks `writeDetailedOutput` writes are not
exactly one line per enumerated error: an initial line rendering the
rejected value precedes them (here two chunks are written for the single
error of the string checker rejecting `3`). -/
theorem writeDetailedOutput_lines_counterexample :
    FluentTypeCheckError.writeDetailedOutput
        ⟨"schema validation failed", FluentTypeBuilderBase.compile ⟨Schema.str⟩, .numV 3⟩ []
      ≠ ((FluentTypeBuilderBase.compile ⟨Schema.str⟩).errors (.numV 3)).map ValueError.line := by
  decide

/-- C7 (amended): `writeDetailedOutput` appends to the caller-supplied
sink one initial line rendering the stored value followed by exactly one
line per entry of the checker's `errors(value)` enumeration, each in the
form `[path] message <value>`; the writes are append-only (the previous
sink contents remain a prefix) and the error object — the recorded value
and the checker the error list is derived from — is left unchanged. -/
theorem writeDetailedOutput_appends_value_then_error_lines (e : FluentTypeCheckError)
    (stdout : List String) :
    e.writeDetailedOutputM stdout
      = (stdout ++ (e.value.inspectV ++ "\n") :: (e.typeCheck.errors e.value).map ValueError.line,
         e) := by
  simp [FluentTypeCheckError.writeDetailedOutputM, FluentTypeCheckError.writeDetailedOutput,
    foldl_append_singleton]

/-- C8: `check` is deterministic and side-effect-free: calling it twice
with the same value on the same checker yields the same boolean result,
and each call leaves the checker's state — its immutable schema binding —
unchanged. -/
theorem check_deterministic_stateless (c : FluentTypeCheck) (v : Value) :
    (c.checkM v).2 = c ∧
    ((c.checkM v).2.checkM v).1 = (c.checkM v).1 ∧
    ((c.checkM v).2.checkM v).2 = c :=
  ⟨rfl, rfl, rfl⟩

/-- C9: `extend` returns a builder whose stored field mapping is exactly
the newly given properties — the receiver's own fields are absent from it
— although its schema handle is built from the spread-merge of the
receiver's fields with the new ones; consequently a subsequent
`pick`/`omit` on the result selects only over the new properties' field
names. -/
theorem extend_stores_only_new_properties (b : ObjectFluentTypeBuilder)
    (p : List (String × FluentTypeBuilderBase)) (keys : List String) :
    (b.extend p).properties = p ∧
    (b.extend p).schema = .obj (Props.ofList (transformProps (spreadMerge b.properties p))) ∧
    ((b.extend p).pick keys).properties = lodashPick p keys ∧
    ((b.extend p).omit keys).properties = lodashOmit p keys :=
  ⟨rfl, rfl, rfl, rfl⟩

/-- C10: `writeDetailedOutput` first writes one line rendering
(`util.inspect`) the stored rejected value, then the per-error lines, so
the total number of chunks written is one plus the number of entries of
the errors enumeration. -/
theorem writeDetailedOutput_first_line_then_errors (e : FluentTypeCheckError)
    (stdout : List String) :
    e.writeDetailedOutput stdout
      = stdout ++ (e.value.inspectV ++ "\n") :: (e.typeCheck.errors e.value).map ValueError.line ∧
    (e.writeDetailedOutput stdout).length
      = stdout.length + 1 + (e.typeCheck.errors e.value).length := by
  have h := foldl_append_singleton ValueError.line (e.typeCheck.errors e.value)
      (stdout ++ [e.value.inspectV ++ "\n"])
  constructor
  · simp [FluentTypeCheckError.writeDetailedOutput, h]
  · simp [FluentTypeCheckError.writeDetailedOutput, h]
    omega
